import Mathlib

/-!
Verification of the styx repository example script (`src/boto3_example.py`).

The script is a straight-line asynchronous S3 usage example: it creates an
aiobotocore client, uploads an object, reads its ACL, reads its content, and
deletes it.  We embed a run of the coroutine `go` as a pure function from an
environment (the responses the remote service returns to each of the four
calls, each possibly an exception) to the trace of observable events of the
run together with its outcome (normal return or a propagating exception).
-/

namespace Styx

/-- `AWS_ACCESS_KEY_ID = "xxx"` (line 5 of the script). -/
def AWS_ACCESS_KEY_ID : String := "xxx"

/-- `AWS_SECRET_ACCESS_KEY = "xxx"` (line 6 of the script). -/
def AWS_SECRET_ACCESS_KEY : String := "xxx"

/-- `bucket = 'dataintake'` (line 10). -/
def bucket : String := "dataintake"

/-- `filename = 'dummy.bin'` (line 11). -/
def filename : String := "dummy.bin"

/-- `folder = 'aiobotocore'` (line 12). -/
def folder : String := "aiobotocore"

/-- `key = f'{folder}/{filename}'` (line 13). -/
def key : String := folder ++ "/" ++ filename

/-- The `endpoint_url="http://styx-prime:8333"` argument of `create_client`. -/
def endpoint_url : String := "http://styx-prime:8333"

/-- The `region_name='mordor'` argument of `create_client`. -/
def region_name : String := "mordor"

/-- `data = b'\x01' * 1024` (line 24): 1024 bytes, each `0x01`. -/
def data : List Nat := List.replicate 1024 1

/-- A successful `get_object` response: the printable metadata of the response
dict and the bytes the body stream yields to `stream.read()`. -/
structure GetResp where
  meta : String
  body : List Nat
  deriving Repr, DecidableEq

/-- The environment of one run: what the remote service answers to each of the
four calls, either a successful response or a raised exception (modelled as a
string describing the exception). -/
structure Env where
  putResp : Except String String
  aclResp : Except String String
  getResp : Except String GetResp
  deleteResp : Except String String
  deriving Repr

/-- Observable events of a run of `go`.  Each remote call produces an issue
event when the request is sent and a complete event when its response has
arrived; entering and leaving the two `async with` blocks produce the
create/release events; `pprint` calls produce print events. -/
inductive Event where
  | createClient (endpointUrl regionName accessKey secretKey : String)
  | issuePut (bucket key : String) (body : List Nat)
  | completePut (resp : String)
  | issueAcl (bucket key : String)
  | completeAcl (resp : String)
  | issueGet (bucket key : String)
  | completeGet (resp : String)
  | issueRead
  | completeRead (bytes : List Nat)
  | releaseBody
  | issueDelete (bucket key : String)
  | completeDelete (resp : String)
  | releaseClient
  | print (s : String)
  deriving Repr, DecidableEq

/-- One run of the coroutine `go` (lines 9-47 of the script), as the list of
events it produces and its outcome.  A raised exception skips the remaining
statements of the `async with client` block; the block still releases the
client on the way out (Python `async with` semantics) and the exception
propagates out of `go` uncaught. -/
def go (env : Env) : List Event × Except String Unit :=
  let createEv : Event :=
    Event.createClient endpoint_url region_name AWS_ACCESS_KEY_ID AWS_SECRET_ACCESS_KEY
  match env.putResp with
  | .error e => ([createEv, .issuePut bucket key data, .releaseClient], .error e)
  | .ok r1 =>
    let t1 : List Event := [createEv, .issuePut bucket key data, .completePut r1,
      .print "PUT OBJECT RESPONSE:", .print r1]
    match env.aclResp with
    | .error e => (t1 ++ [.issueAcl bucket key, .releaseClient], .error e)
    | .ok r2 =>
      let t2 : List Event := t1 ++ [.issueAcl bucket key, .completeAcl r2,
        .print "GET OBJECT ACL RESPONSE:", .print r2]
      match env.getResp with
      | .error e => (t2 ++ [.issueGet bucket key, .releaseClient], .error e)
      | .ok r3 =>
        let t3 : List Event := t2 ++ [.issueGet bucket key, .completeGet r3.meta,
          .issueRead, .completeRead r3.body,
          .print "GET OBJECT RESPONSE:", .print r3.meta, .releaseBody]
        match env.deleteResp with
        | .error e => (t3 ++ [.issueDelete bucket key, .releaseClient], .error e)
        | .ok r4 =>
          (t3 ++ [.issueDelete bucket key, .completeDelete r4,
            .print "DELETE OBJECT RESPONSE:", .print r4, .releaseClient], .ok ())

/-- The event trace of a run of `go`. -/
def trace (env : Env) : List Event := (go env).1

/-- The outcome of a run of `go`: `.ok ()` for a normal return, `.error e`
for a propagating exception. -/
def result (env : Env) : Except String Unit := (go env).2

/-- How the process ends when the script is executed as a program. -/
inductive ProcessExit where
  | success
  | crash (e : String)
  deriving Repr, DecidableEq

/-- The `if __name__ == '__main__': asyncio.run(go())` block (lines 50-51):
the process runs the single coroutine `go` once on one event loop; a normal
return exits successfully, a propagating exception terminates the process. -/
def scriptMain (env : Env) : List Event × ProcessExit :=
  match go env with
  | (t, .ok _) => (t, .success)
  | (t, .error e) => (t, .crash e)

/-- The abstract kind of an event, forgetting its payload. -/
inductive Kind where
  | create | issuePut | completePut | issueAcl | completeAcl
  | issueGet | completeGet | issueRead | completeRead
  | releaseBody | issueDelete | completeDelete | releaseClient | printed
  deriving Repr, DecidableEq

/-- Forget an event's payload. -/
def Event.kind : Event → Kind
  | .createClient _ _ _ _ => .create
  | .issuePut _ _ _ => .issuePut
  | .completePut _ => .completePut
  | .issueAcl _ _ => .issueAcl
  | .completeAcl _ => .completeAcl
  | .issueGet _ _ => .issueGet
  | .completeGet _ => .completeGet
  | .issueRead => .issueRead
  | .completeRead _ => .completeRead
  | .releaseBody => .releaseBody
  | .issueDelete _ _ => .issueDelete
  | .completeDelete _ => .completeDelete
  | .releaseClient => .releaseClient
  | .print _ => .printed

/-- The kinds of the events of a run, in order. -/
def kinds (env : Env) : List Kind := (trace env).map Event.kind

/-- Kinds that are part of the remote interaction (client creation, request
issues, response completions), as opposed to local prints and releases. -/
def isRemoteKind : Kind → Bool
  | .printed => false
  | .releaseBody => false
  | .releaseClient => false
  | _ => true

/-- The remote-interaction kinds of a run, in order. -/
def remoteKinds (env : Env) : List Kind := (kinds env).filter isRemoteKind

/-- The full remote interaction of a run in which every call succeeds. -/
def fullRemote : List Kind :=
  [.create, .issuePut, .completePut, .issueAcl, .completeAcl,
   .issueGet, .completeGet, .issueRead, .completeRead,
   .issueDelete, .completeDelete]

/-- Kinds that issue one of the four S3 requests. -/
def isIssueKind : Kind → Bool
  | .issuePut => true
  | .issueAcl => true
  | .issueGet => true
  | .issueDelete => true
  | _ => false

/-- The issue kinds of a run, in order. -/
def issueKinds (env : Env) : List Kind := (kinds env).filter isIssueKind

/-- The four S3 requests in the written order of the script. -/
def fullIssues : List Kind := [.issuePut, .issueAcl, .issueGet, .issueDelete]

/-- Kinds that send a request to the remote service (the four calls and the
body-stream read). -/
def isReqKind : Kind → Bool
  | .issuePut => true
  | .issueAcl => true
  | .issueGet => true
  | .issueDelete => true
  | .issueRead => true
  | _ => false

/-- Kinds that receive a response from the remote service. -/
def isRespKind : Kind → Bool
  | .completePut => true
  | .completeAcl => true
  | .completeGet => true
  | .completeDelete => true
  | .completeRead => true
  | _ => false

/-- The number of in-flight remote requests after each event of the run. -/
def pendingCounts (cur : Nat) : List Kind → List Nat
  | [] => []
  | k :: ks =>
    let cur' := if isReqKind k then cur + 1 else if isRespKind k then cur - 1 else cur
    cur' :: pendingCounts cur' ks

/-- `subseqOf xs ys = true` iff `xs` occurs inside `ys` in order (not
necessarily contiguously). -/
def subseqOf : List Kind → List Kind → Bool
  | [], _ => true
  | _ :: _, [] => false
  | a :: as, b :: bs => if a = b then subseqOf as bs else subseqOf (a :: as) bs

/-- The client-creation events of a trace. -/
def createEvents (t : List Event) : List Event :=
  t.filter fun e => match e with
    | .createClient _ _ _ _ => true
    | _ => false

/-- The bodies uploaded by `put_object` requests of a trace. -/
def putBodies (t : List Event) : List (List Nat) :=
  t.filterMap fun e => match e with
    | .issuePut _ _ b => some b
    | _ => none

/-- The `(bucket, key)` targets of the four S3 requests of a trace, in
order. -/
def issueTargets (t : List Event) : List (String × String) :=
  t.filterMap fun e => match e with
    | .issuePut b k _ => some (b, k)
    | .issueAcl b k => some (b, k)
    | .issueGet b k => some (b, k)
    | .issueDelete b k => some (b, k)
    | _ => none

/-- The lines printed by a run, in order. -/
def printedLines (t : List Event) : List String :=
  t.filterMap fun e => match e with
    | .print s => some s
    | _ => none

/-- The `(bucket, key)` targets of `delete_object` requests of a trace. -/
def deleteRequests (t : List Event) : List (String × String) :=
  t.filterMap fun e => match e with
    | .issueDelete b k => some (b, k)
    | _ => none

/-- The exception raised by the first failing call of a run, if any,
following the order in which the script issues the calls. -/
def firstFailure (env : Env) : Option String :=
  match env.putResp with
  | .error e => some e
  | .ok _ =>
    match env.aclResp with
    | .error e => some e
    | .ok _ =>
      match env.getResp with
      | .error e => some e
      | .ok _ =>
        match env.deleteResp with
        | .error e => some e
        | .ok _ => none

/-- An environment in which every call succeeds. -/
def envAllOk : Env :=
  ⟨.ok "put-ok", .ok "acl-ok", .ok ⟨"get-ok", [7, 7]⟩, .ok "del-ok"⟩

/-- An environment in which `put_object` raises. -/
def envPutFail : Env :=
  ⟨.error "EndpointConnectionError", .ok "acl-ok", .ok ⟨"get-ok", []⟩, .ok "del-ok"⟩

/-- An environment in which `get_object_acl` raises. -/
def envAclFail : Env :=
  ⟨.ok "put-ok", .error "AccessDenied", .ok ⟨"get-ok", []⟩, .ok "del-ok"⟩

/-- Claim C5 as stated: in every run the body stream is released before the
`DeleteObject` call is issued, and the client is released only after all four
remote calls have completed. -/
abbrev bodyBeforeDelete (env : Env) : Prop :=
  Kind.issueDelete ∈ kinds env →
    subseqOf [Kind.releaseBody, Kind.issueDelete] (kinds env) = true

/-- The second half of claim C5: a client release happens only after all four
calls have completed. -/
abbrev clientAfterAllFour (env : Env) : Prop :=
  Kind.releaseClient ∈ kinds env →
    subseqOf [Kind.completePut, Kind.completeAcl, Kind.completeGet,
      Kind.completeDelete, Kind.releaseClient] (kinds env) = true

/-- Claim C5 as stated, for one run. -/
abbrev scopedReleaseClaim (env : Env) : Prop :=
  bodyBeforeDelete env ∧ clientAfterAllFour env

set_option maxRecDepth 10000

/-- C1: in every run of `go` the remote interaction is an initial segment of
the written order — create client, issue PutObject, its response, issue
GetObjectAcl, its response, issue GetObject, its response, read the body,
issue DeleteObject, its response — so each operation completes before the
next is issued and no two requests are ever in flight; a run in which the
last call completes performs exactly the full sequence, and every run starts
by creating the client. -/
theorem go_operations_sequential (env : Env) :
    remoteKinds env = fullRemote.take (remoteKinds env).length ∧
    (Kind.completeDelete ∈ kinds env → remoteKinds env = fullRemote) ∧
    (kinds env).head? = some Kind.create := by
  rcases env with ⟨p, a, g, d⟩
  cases p <;> cases a <;> cases g <;> cases d <;> exact of_decide_eq_true rfl

/-- Witness for C1: in the all-successful run the remote interaction is
exactly the full written sequence. -/
theorem go_operations_sequential_witness :
    Kind.completeDelete ∈ kinds envAllOk ∧ remoteKinds envAllOk = fullRemote :=
  ⟨by decide, (go_operations_sequential envAllOk).2.1 (by decide)⟩

/-- C2: `go` catches nothing and retries nothing — the exception raised by
the first failing call is the outcome of the whole run, and when the script
is run as a program that exception terminates the process; when no call
fails, `go` returns normally and the process exits successfully. -/
theorem go_failure_propagation (env : Env) :
    (∀ e, firstFailure env = some e →
      result env = Except.error e ∧ (scriptMain env).2 = ProcessExit.crash e) ∧
    (firstFailure env = none →
      result env = Except.ok () ∧ (scriptMain env).2 = ProcessExit.success) := by
  rcases env with ⟨p, a, g, d⟩
  cases p <;> cases a <;> cases g <;> cases d <;>
    first
      | exact ⟨fun e h => Option.noConfusion h, fun _ => ⟨rfl, rfl⟩⟩
      | exact ⟨fun e h => by injection h with h'; subst h'; exact ⟨rfl, rfl⟩,
          fun h => Option.noConfusion h⟩

/-- Witness for C2: a failing `get_object_acl` propagates out of `go` and
crashes the process. -/
theorem go_failure_propagation_witness :
    result envAclFail = Except.error "AccessDenied" ∧
    (scriptMain envAclFail).2 = ProcessExit.crash "AccessDenied" :=
  (go_failure_propagation envAclFail).1 "AccessDenied" rfl

/-- C3: every run of `go` issues an initial segment of the four calls
`put_object`, `get_object_acl`, `get_object`, `delete_object` in that order
— no branching, no retry, no repetition — and a run in which the last call
completes issues exactly those four. -/
theorem go_exactly_four_calls (env : Env) :
    issueKinds env = fullIssues.take (issueKinds env).length ∧
    (Kind.completeDelete ∈ kinds env → issueKinds env = fullIssues) := by
  rcases env with ⟨p, a, g, d⟩
  cases p <;> cases a <;> cases g <;> cases d <;> exact of_decide_eq_true rfl

/-- Witness for C3: the all-successful run issues exactly the four calls. -/
theorem go_exactly_four_calls_witness :
    Kind.completeDelete ∈ kinds envAllOk ∧ issueKinds envAllOk = fullIssues :=
  ⟨by decide, (go_exactly_four_calls envAllOk).2 (by decide)⟩

/-- C4: every run of `go` creates exactly one client, always with the same
hardcoded placeholder configuration — endpoint `http://styx-prime:8333`,
region `mordor`, access key `xxx`, secret key `xxx` — independent of the
environment. -/
theorem go_config_hardcoded (env : Env) :
    createEvents (trace env) =
      [Event.createClient endpoint_url region_name AWS_ACCESS_KEY_ID AWS_SECRET_ACCESS_KEY] ∧
    endpoint_url = "http://styx-prime:8333" ∧ region_name = "mordor" ∧
    AWS_ACCESS_KEY_ID = "xxx" ∧ AWS_SECRET_ACCESS_KEY = "xxx" := by
  rcases env with ⟨p, a, g, d⟩
  cases p <;> cases a <;> cases g <;> cases d <;> exact ⟨rfl, rfl, rfl, rfl, rfl⟩

/-- C5, counterexample: the claim as stated fails on the run in which
`put_object` raises — the client is still released (the `async with` block
unwinds) although the four remote calls have not all completed. -/
theorem scoped_release_claim_refuted : ¬ scopedReleaseClaim envPutFail := by
  decide

/-- C5 as amended: in every run of `go` the body stream, when acquired, is
released before the DeleteObject call is issued; the client release is the
last event of every run (the end of its block, also when an exception
unwinds it); and in a run in which all four calls complete, the client is
released only after all four completions. -/
theorem go_scoped_release (env : Env) :
    bodyBeforeDelete env ∧
    (kinds env).getLast? = some Kind.releaseClient ∧
    (Kind.completeDelete ∈ kinds env → clientAfterAllFour env) := by
  rcases env with ⟨p, a, g, d⟩
  cases p <;> cases a <;> cases g <;> cases d <;> exact of_decide_eq_true rfl

/-- Witness for C5 (amended): in the all-successful run the client release
comes after all four completions. -/
theorem go_scoped_release_witness :
    subseqOf [Kind.completePut, Kind.completeAcl, Kind.completeGet,
      Kind.completeDelete, Kind.releaseClient] (kinds envAllOk) = true :=
  (go_scoped_release envAllOk).2.2 (by decide) (by decide)

/-- C6: running the script as a program runs the single coroutine `go` once
— the process trace is exactly one `go` trace — and at no point of any run
is more than one remote request in flight. -/
theorem script_single_task (env : Env) :
    (scriptMain env).1 = trace env ∧
    ∀ n ∈ pendingCounts 0 (kinds env), n ≤ 1 := by
  rcases env with ⟨p, a, g, d⟩
  cases p <;> cases a <;> cases g <;> cases d <;>
    exact ⟨rfl, of_decide_eq_true rfl⟩

/-- Witness for C6: in the all-successful run the in-flight count reaches 1
and never exceeds it. -/
theorem script_single_task_witness :
    (1 : Nat) ∈ pendingCounts 0 (kinds envAllOk) ∧ (1 : Nat) ≤ 1 :=
  ⟨by decide, (script_single_task envAllOk).2 1 (by decide)⟩

/-- C7: every run of `go` uploads exactly one body, namely `data`, which is
1024 bytes long with every byte equal to `0x01`. -/
theorem go_put_body_bytes (env : Env) :
    putBodies (trace env) = [data] ∧ data.length = 1024 ∧ ∀ b ∈ data, b = 1 := by
  refine ⟨?_, by simp [data], ?_⟩
  · rcases env with ⟨p, a, g, d⟩
    cases p <;> cases a <;> cases g <;> cases d <;> rfl
  · intro b hb
    simp only [data] at hb
    exact List.eq_of_mem_replicate hb

/-- Witness for C7: the first byte of the uploaded body is `0x01`. -/
theorem go_put_body_bytes_witness : (1 : Nat) ∈ data ∧ (1 : Nat) = 1 :=
  have hm : (1 : Nat) ∈ data := List.mem_replicate.mpr ⟨by norm_num, rfl⟩
  ⟨hm, (go_put_body_bytes envAllOk).2.2 1 hm⟩

/-- C8: every request any run of `go` issues targets bucket `dataintake` and
key `aiobotocore/dummy.bin` (the folder joined to the filename with `/`), so
the object read and deleted is exactly the object uploaded; a run in which
the last call completes issues all four requests at that single target. -/
theorem go_single_target (env : Env) :
    (∀ t ∈ issueTargets (trace env), t = (bucket, key)) ∧
    bucket = "dataintake" ∧ key = folder ++ "/" ++ filename ∧
    key = "aiobotocore/dummy.bin" ∧
    (Kind.completeDelete ∈ kinds env →
      issueTargets (trace env) = List.replicate 4 (bucket, key)) := by
  rcases env with ⟨p, a, g, d⟩
  cases p <;> cases a <;> cases g <;> cases d <;> exact of_decide_eq_true rfl

/-- Witness for C8: the delete request of the all-successful run targets the
uploaded object. -/
theorem go_single_target_witness :
    ("dataintake", "aiobotocore/dummy.bin") ∈ issueTargets (trace envAllOk) ∧
    ("dataintake", "aiobotocore/dummy.bin") = (bucket, key) :=
  ⟨by decide, (go_single_target envAllOk).1 _ (by decide)⟩

/-- C9: the bytes `stream.read()` returns are discarded — two runs whose
`get_object` responses differ only in the body content have the same printed
lines, the same delete requests, the same event kinds, and the same
outcome. -/
theorem go_body_noninterference (p a d : Except String String) (m : String)
    (b b' : List Nat) :
    printedLines (trace ⟨p, a, Except.ok ⟨m, b⟩, d⟩) =
      printedLines (trace ⟨p, a, Except.ok ⟨m, b'⟩, d⟩) ∧
    deleteRequests (trace ⟨p, a, Except.ok ⟨m, b⟩, d⟩) =
      deleteRequests (trace ⟨p, a, Except.ok ⟨m, b'⟩, d⟩) ∧
    kinds ⟨p, a, Except.ok ⟨m, b⟩, d⟩ = kinds ⟨p, a, Except.ok ⟨m, b'⟩, d⟩ ∧
    result ⟨p, a, Except.ok ⟨m, b⟩, d⟩ = result ⟨p, a, Except.ok ⟨m, b'⟩, d⟩ := by
  cases p <;> cases a <;> cases d <;> exact ⟨rfl, rfl, rfl, rfl⟩

end Styx
